import Mathlib

/-!
Shallow embedding of the PHP-FPM queue monitor (src/main.rs) and proofs
about its sampling pipeline: container enumeration, process classification,
socket-queue sampling, aggregation, and metric emission.

External command invocations (docker, nsenter/ss) are modelled by an
explicit environment `DockerEnv` mapping each invocation to its outcome.
Command stdout is modelled as a `String` (the UTF-8-decoded bytes).
-/

namespace PhpFpmMonitor

/-! ### String helpers modelling Rust std string operations -/

/-- Models Rust `str::lines`: lines are terminated by a newline or a
carriage return followed by a newline; the final line ending is optional.
The accumulator holds the current line's characters in reverse. -/
def rustLinesAux : List Char → List Char → List String
  | [], acc => if acc.isEmpty then [] else [String.mk acc.reverse]
  | '\n' :: rest, acc =>
    (match acc with
     | '\r' :: acc2 => String.mk acc2.reverse
     | _ => String.mk acc.reverse) :: rustLinesAux rest []
  | c :: rest, acc => rustLinesAux rest (c :: acc)

/-- Models Rust `str::lines` on a whole string. -/
def rustLines (s : String) : List String := rustLinesAux s.data []

/-- Models Rust `str::split_whitespace` (restricted to ASCII whitespace):
splits on runs of whitespace and never yields empty substrings. -/
def splitWsAux : List Char → List Char → List String
  | [], acc => if acc.isEmpty then [] else [String.mk acc.reverse]
  | c :: rest, acc =>
    if c.isWhitespace then
      if acc.isEmpty then splitWsAux rest []
      else String.mk acc.reverse :: splitWsAux rest []
    else splitWsAux rest (c :: acc)

/-- Models Rust `str::split_whitespace` on a whole string. -/
def split_whitespace (s : String) : List String := splitWsAux s.data []

/-- Models Rust `str::contains(&str)`: substring containment. -/
def containsSub (hay pat : String) : Bool :=
  hay.data.tails.any (fun t => pat.data.isPrefixOf t)

/-- Value of a list of ASCII digit characters; `none` if empty or any
character is not a digit. Accumulator carries the value so far. -/
def digitsValAux : List Char → Nat → Option Nat
  | [], acc => some acc
  | c :: rest, acc =>
    if c.isDigit then digitsValAux rest (acc * 10 + (c.toNat - '0'.toNat))
    else none

/-- Digit-sequence value requiring at least one digit. -/
def digitsVal : List Char → Option Nat
  | [] => none
  | l => digitsValAux l 0

/-- Models Rust `str::parse::<i32>()`: optional sign, one or more ASCII
digits, value within the i32 range. -/
def parseI32 (s : String) : Option Int :=
  match s.data with
  | '+' :: rest =>
    (digitsVal rest).bind fun n =>
      if n ≤ 2147483647 then some (Int.ofNat n) else none
  | '-' :: rest =>
    (digitsVal rest).bind fun n =>
      if n ≤ 2147483648 then some (-(Int.ofNat n)) else none
  | l =>
    (digitsVal l).bind fun n =>
      if n ≤ 2147483647 then some (Int.ofNat n) else none

/-- Models Rust `str::parse::<u32>()`: optional plus sign, one or more
ASCII digits, value within the u32 range. -/
def parseU32 (s : String) : Option Nat :=
  match s.data with
  | '+' :: rest =>
    (digitsVal rest).bind fun n => if n ≤ 4294967295 then some n else none
  | l =>
    (digitsVal l).bind fun n => if n ≤ 4294967295 then some n else none

/-- Models Rust `str::trim` (restricted to ASCII whitespace): drop
leading and trailing whitespace. -/
def rustTrim (s : String) : String :=
  String.mk (((s.data.dropWhile Char.isWhitespace).reverse.dropWhile
    Char.isWhitespace).reverse)

/-- Models Rust `str::split_once(char)`: splits at the first occurrence of
the separator; `none` when the separator is absent. The accumulator holds
the scanned characters in reverse. -/
def splitOnceAux (sep : Char) : List Char → List Char → Option (String × String)
  | [], _ => none
  | c :: rest, acc =>
    if c = sep then some (String.mk acc.reverse, String.mk rest)
    else splitOnceAux sep rest (c :: acc)

/-- Models Rust `str::split_once(char)` on a whole string. -/
def split_once (sep : Char) (s : String) : Option (String × String) :=
  splitOnceAux sep s.data []

/-! ### JSON model (serde_json collaborator at its interface) -/

/-- JSON values as produced by the docker inspect format call. A number is
kept as its source lexeme: the monitor only ever asks a value whether it is
an array and whether an element is a given string. -/
inductive Json where
  | null : Json
  | bool (b : Bool) : Json
  | num (lexeme : String) : Json
  | str (s : String) : Json
  | arr (elems : List Json) : Json
  | obj (members : List (String × Json)) : Json

/-- JSON insignificant whitespace. -/
def jsonWs (c : Char) : Bool :=
  c = ' ' || c = '\t' || c = '\n' || c = '\r'

/-- Drop leading JSON whitespace. -/
def skipJsonWs (l : List Char) : List Char := l.dropWhile jsonWs

/-- Hexadecimal digit value. -/
def hexVal (c : Char) : Option Nat :=
  if c.isDigit then some (c.toNat - '0'.toNat)
  else if 'a' ≤ c ∧ c ≤ 'f' then some (c.toNat - 'a'.toNat + 10)
  else if 'A' ≤ c ∧ c ≤ 'F' then some (c.toNat - 'A'.toNat + 10)
  else none

/-- Parse the body of a JSON string (after the opening quote), handling the
standard escapes; returns the decoded characters and the remaining input.
Fuel bounds recursion depth. -/
def parseStrBody : Nat → List Char → List Char → Option (List Char × List Char)
  | 0, _, _ => none
  | _ + 1, [], _ => none
  | _ + 1, '"' :: rest, acc => some (acc.reverse, rest)
  | fuel + 1, '\\' :: e :: rest, acc =>
    match e with
    | '"' => parseStrBody fuel rest ('"' :: acc)
    | '\\' => parseStrBody fuel rest ('\\' :: acc)
    | '/' => parseStrBody fuel rest ('/' :: acc)
    | 'b' => parseStrBody fuel rest ('\x08' :: acc)
    | 'f' => parseStrBody fuel rest ('\x0c' :: acc)
    | 'n' => parseStrBody fuel rest ('\n' :: acc)
    | 'r' => parseStrBody fuel rest ('\r' :: acc)
    | 't' => parseStrBody fuel rest ('\t' :: acc)
    | 'u' =>
      match rest with
      | a :: b :: c :: d :: rest2 =>
        match hexVal a, hexVal b, hexVal c, hexVal d with
        | some va, some vb, some vc, some vd =>
          parseStrBody fuel rest2
            (Char.ofNat (((va * 16 + vb) * 16 + vc) * 16 + vd) :: acc)
        | _, _, _, _ => none
      | _ => none
    | _ => none
  | fuel + 1, c :: rest, acc =>
    if c.toNat < 32 then none else parseStrBody fuel rest (c :: acc)

/-- Take leading ASCII digits. Returns (digits, rest). -/
def takeDigits : List Char → List Char × List Char
  | [] => ([], [])
  | c :: rest =>
    if c.isDigit then
      let (ds, r) := takeDigits rest
      (c :: ds, r)
    else ([], c :: rest)

/-- Parse a JSON number lexeme per the JSON grammar
(minus? int frac? exp?, no leading zeros). Returns the lexeme and rest. -/
def parseNumLexeme (l : List Char) : Option (List Char × List Char) :=
  let (sign, l1) := match l with
    | '-' :: r => ([ '-' ], r)
    | _ => (([] : List Char), l)
  match l1 with
  | '0' :: r1 => parseNumTail (sign ++ ['0']) r1
  | c :: _ =>
    if c.isDigit then
      let (ds, r1) := takeDigits l1
      parseNumTail (sign ++ ds) r1
    else none
  | [] => none
where
  /-- Optional fraction and exponent after the integer part. -/
  parseNumTail (intPart : List Char) (l : List Char) : Option (List Char × List Char) :=
    let fracPart : Option (List Char × List Char) := match l with
      | '.' :: r =>
        (match takeDigits r with
         | ([], _) => none
         | (ds, r2) => some ('.' :: ds, r2))
      | _ => some (([] : List Char), l)
    match fracPart with
    | none => none
    | some (fp, l2) =>
      match l2 with
      | e :: r =>
        if e = 'e' ∨ e = 'E' then
          let (es, r2) := match r with
            | '+' :: r3 => (['+'], r3)
            | '-' :: r3 => (['-'], r3)
            | _ => (([] : List Char), r)
          match takeDigits r2 with
          | ([], _) => none
          | (ds, r3) => some (intPart ++ fp ++ e :: es ++ ds, r3)
        else some (intPart ++ fp, l2)
      | [] => some (intPart ++ fp, [])

mutual

/-- Parse one JSON value (after skipping leading whitespace); fuel bounds
recursion depth. Models `serde_json::from_str` up to the point of
consuming one value. -/
def parseJsonVal : Nat → List Char → Option (Json × List Char)
  | 0, _ => none
  | fuel + 1, l =>
    match skipJsonWs l with
    | 'n' :: 'u' :: 'l' :: 'l' :: rest => some (Json.null, rest)
    | 't' :: 'r' :: 'u' :: 'e' :: rest => some (Json.bool true, rest)
    | 'f' :: 'a' :: 'l' :: 's' :: 'e' :: rest => some (Json.bool false, rest)
    | '"' :: rest =>
      (parseStrBody (rest.length + 1) rest []).map
        fun p => (Json.str (String.mk p.1), p.2)
    | '[' :: rest =>
      (match skipJsonWs rest with
       | ']' :: r2 => some (Json.arr [], r2)
       | r2 => parseJsonArrElems fuel r2 [])
    | '{' :: rest =>
      (match skipJsonWs rest with
       | '}' :: r2 => some (Json.obj [], r2)
       | r2 => parseJsonObjMembers fuel r2 [])
    | l2 =>
      (parseNumLexeme l2).map fun p => (Json.num (String.mk p.1), p.2)

/-- Parse the elements of a non-empty JSON array, the accumulator holding
already-parsed elements in reverse. -/
def parseJsonArrElems : Nat → List Char → List Json → Option (Json × List Char)
  | 0, _, _ => none
  | fuel + 1, l, acc =>
    match parseJsonVal fuel l with
    | none => none
    | some (v, rest) =>
      match skipJsonWs rest with
      | ',' :: r2 => parseJsonArrElems fuel r2 (v :: acc)
      | ']' :: r2 => some (Json.arr (v :: acc).reverse, r2)
      | _ => none

/-- Parse the members of a non-empty JSON object, the accumulator holding
already-parsed members in reverse. -/
def parseJsonObjMembers : Nat → List Char → List (String × Json) → Option (Json × List Char)
  | 0, _, _ => none
  | fuel + 1, l, acc =>
    match skipJsonWs l with
    | '"' :: rest =>
      match parseStrBody (rest.length + 1) rest [] with
      | none => none
      | some (key, r1) =>
        match skipJsonWs r1 with
        | ':' :: r2 =>
          match parseJsonVal fuel r2 with
          | none => none
          | some (v, r3) =>
            match skipJsonWs r3 with
            | ',' :: r4 => parseJsonObjMembers fuel r4 ((String.mk key, v) :: acc)
            | '}' :: r4 => some (Json.obj ((String.mk key, v) :: acc).reverse, r4)
            | _ => none
        | _ => none
    | _ => none

end

/-- Models `serde_json::from_str::<Value>`: parse one value and require
only whitespace to remain. -/
def serde_json_from_str (s : String) : Option Json :=
  match parseJsonVal (s.length + 1) s.data with
  | some (v, rest) => if (skipJsonWs rest).isEmpty then some v else none
  | none => none

/-! ### Environment model for external command invocations -/

/-- Outcome of one `Command::output()` call: captured status and stdout
(stdout modelled as its UTF-8 decoding). -/
structure CmdOutput where
  success : Bool
  stdout : String
deriving DecidableEq

/-- Either the spawn itself failed (`output()` returned `Err`) or the
command ran and produced a `CmdOutput`. -/
inductive ExecOutcome where
  | failed : ExecOutcome
  | ran (out : CmdOutput) : ExecOutcome
deriving DecidableEq

/-- One tick's external world: the outcome of each external command the
monitor can issue (docker ps, docker inspect of the command and of the
PID, and the namespace-scoped socket listing keyed by PID). -/
structure DockerEnv where
  psOutput : ExecOutcome
  inspectCmd : String → ExecOutcome
  inspectPid : String → ExecOutcome
  ssOutput : Nat → ExecOutcome

/-- Models `get_docker_container_ids` (main.rs lines 110-127): run
`docker ps -q`, fail on spawn failure or non-success status, otherwise
split stdout into trimmed non-empty lines. -/
def get_docker_container_ids (env : DockerEnv) : Except String (List String) :=
  match env.psOutput with
  | ExecOutcome.failed => Except.error "Failed to execute docker ps -q"
  | ExecOutcome.ran out =>
    if !out.success then
      Except.error "docker ps -q failed"
    else
      Except.ok ((rustLines out.stdout).filter
        (fun line => !(rustTrim line).data.isEmpty) |>.map (fun line => rustTrim line))

/-- The classification test applied to the parsed inspect value
(main.rs lines 144-151): the value classifies when it is an array with
an element that is exactly the string "php-fpm". -/
def cmdMatchesPhpFpm : Json → Bool
  | Json.arr elems =>
    elems.any fun v =>
      match v with
      | Json.str s => s == "php-fpm"
      | _ => false
  | _ => false

/-- Models `is_php_fpm_container` (main.rs lines 129-152): inspect the
container's configured command; a spawn failure propagates an error, a
non-success status yields `false`, unparseable JSON propagates an error,
and otherwise the classification test decides. -/
def is_php_fpm_container (env : DockerEnv) (container_id : String) :
    Except String Bool :=
  match env.inspectCmd container_id with
  | ExecOutcome.failed => Except.error "Failed to execute docker inspect"
  | ExecOutcome.ran out =>
    if !out.success then Except.ok false
    else
      match serde_json_from_str (rustTrim out.stdout) with
      | none => Except.error "Failed to parse docker inspect output as JSON"
      | some cmd => Except.ok (cmdMatchesPhpFpm cmd)

/-- Per-line extraction attempted by the ss-output scan: the value of a
line is the parse of its third whitespace field, provided the line
contains the well-known socket path and has at least three fields. -/
def ssLineVal (line : String) : Option Int :=
  if containsSub line "/var/run/php-fpm/www.socket" then
    match (split_whitespace line).get? 2 with
    | some f => parseI32 f
    | none => none
  else none

/-- Models the line loop of `get_container_queue_length` (main.rs lines
191-201): return the parsed third field of the first line that contains
the socket path and parses; fall through to the next line otherwise, and
to zero when no line succeeds (line 203). -/
def scanSsLines : List String → Int
  | [] => 0
  | line :: rest =>
    if containsSub line "/var/run/php-fpm/www.socket" then
      let parts := split_whitespace line
      if parts.length ≥ 3 then
        match parseI32 (parts.getD 2 "") with
        | some queue_len => queue_len
        | none => scanSsLines rest
      else scanSsLines rest
    else scanSsLines rest

/-- Models `get_container_queue_length` (main.rs lines 154-204): resolve
the container's PID (spawn failure, non-success status, or an
unparseable PID each propagate an error), then list sockets in its
network namespace (spawn failure propagates an error, non-success status
yields zero), then scan the listing. -/
def get_container_queue_length (env : DockerEnv) (container_id : String) :
    Except String Int :=
  match env.inspectPid container_id with
  | ExecOutcome.failed => Except.error "Failed to get container PID"
  | ExecOutcome.ran pidOut =>
    if !pidOut.success then
      Except.error ("Failed to get PID for container " ++ container_id)
    else
      match parseU32 (rustTrim pidOut.stdout) with
      | none => Except.error "Failed to parse PID"
      | some pid =>
        match env.ssOutput pid with
        | ExecOutcome.failed => Except.error "Failed to execute nsenter ss command"
        | ExecOutcome.ran out =>
          if !out.success then Except.ok 0
          else Except.ok (scanSsLines (rustLines out.stdout))

/-- Two's-complement reduction of an integer into the i32 range
[-2^31, 2^31): the value an i32 register holds after an arithmetic
operation whose mathematical result is `n`. -/
def wrap32 (n : Int) : Int :=
  (n + 2147483648) % 4294967296 - 2147483648

/-- Wrapping i32 addition, as `+=` on the `i32` accumulator
`total_queue_len` behaves in a release build (overflow wraps). -/
def i32_add (a b : Int) : Int := wrap32 (a + b)

/-- The wrapping-i32 sum of a list of contributions, exactly as the
loop's `i32` accumulator computes it: a left fold of wrapping addition
starting from zero. -/
def sumWrap32 (l : List Int) : Int := l.foldl i32_add 0

/-- The per-container loop body of `collect_php_fpm_queue_length`
(main.rs lines 100-105) written as an accumulator recursion: classify,
and when classified add the container's queue length to the `i32`
accumulator with wrapping addition; any error propagates. -/
def aggregate_over (env : DockerEnv) : List String → Int → Except String Int
  | [], acc => Except.ok acc
  | c :: rest, acc =>
    match is_php_fpm_container env c with
    | Except.error e => Except.error e
    | Except.ok b =>
      if b then
        match get_container_queue_length env c with
        | Except.error e => Except.error e
        | Except.ok queue_len => aggregate_over env rest (i32_add acc queue_len)
      else aggregate_over env rest acc

/-- Models `collect_php_fpm_queue_length` (main.rs lines 96-108):
enumerate containers, then run the classify-and-sample loop starting
from a zero total. -/
def collect_php_fpm_queue_length (env : DockerEnv) : Except String Int :=
  match get_docker_container_ids env with
  | Except.error e => Except.error e
  | Except.ok container_ids => aggregate_over env container_ids 0

/-- What one tick does with the aggregate: nothing, a dry-run log line,
or a hand-off of the value to the metrics sink. -/
inductive Emission where
  | silent : Emission
  | dryRunLog (v : Int) : Emission
  | sent (v : Int) : Emission
deriving DecidableEq

/-- Models `collect_and_send_metrics` (main.rs lines 75-94): collect the
aggregate (errors propagate), and emit only when it is strictly
positive — to the log in dry-run mode, to the sink otherwise. The sink
itself is the reliable external collaborator of the spec's section 6. -/
def collect_and_send_metrics (env : DockerEnv) (dry_run : Bool) :
    Except String Emission :=
  match collect_php_fpm_queue_length env with
  | Except.error e => Except.error e
  | Except.ok total_queue_len =>
    if total_queue_len > 0 then
      if dry_run then Except.ok (Emission.dryRunLog total_queue_len)
      else Except.ok (Emission.sent total_queue_len)
    else Except.ok Emission.silent

/-- Models the body of `main`'s loop (main.rs lines 63-72) over a stream
of per-tick environments: each tick's result is logged and absorbed — an
error never stops the iteration. -/
def run_ticks (envs : List DockerEnv) (dry_run : Bool) :
    List (Except String Emission) :=
  envs.map fun env => collect_and_send_metrics env dry_run

/-- Models the dimension-parsing loop of `send_cloudwatch_metric`
(main.rs lines 211-225): each `key=value` argument is split at the first
equals sign into a trimmed pair; an argument without an equals sign is
logged and dropped. -/
def parse_dimensions (dims : List String) : List (String × String) :=
  dims.filterMap fun s =>
    (split_once '=' s).map fun kv => (rustTrim kv.1, rustTrim kv.2)

/-- Success test for an `Except` result. -/
def exceptOk {ε α : Type} : Except ε α → Bool
  | Except.ok _ => true
  | Except.error _ => false

/-- The contribution of one container to the tick's total, as the loop
body computes it: zero for a container that does not classify, the
sampled queue length for one that does, and a propagating error when
either step errors. -/
def containerContrib (env : DockerEnv) (c : String) : Except String Int :=
  match is_php_fpm_container env c with
  | Except.error e => Except.error e
  | Except.ok b =>
    if b then get_container_queue_length env c else Except.ok 0

/-- Numeric value of a container's contribution, zero on error. -/
def contribVal (env : DockerEnv) (c : String) : Int :=
  match containerContrib env c with
  | Except.ok q => q
  | Except.error _ => 0

/-! ### Concrete per-tick environments used as witnesses and counterexamples -/

/-- A command run that succeeded with the given stdout. -/
def okRun (s : String) : ExecOutcome :=
  ExecOutcome.ran { success := true, stdout := s }

/-- A command run that exited with a non-success status. -/
def failRun : ExecOutcome :=
  ExecOutcome.ran { success := false, stdout := "" }

/-- A healthy tick: two containers, one php-fpm with queue length 5, one
nginx. -/
def envHealthy : DockerEnv :=
  { psOutput := okRun "c1\nc2\n"
  , inspectCmd := fun c =>
      if c = "c1" then okRun "[\"php-fpm\"]" else okRun "[\"nginx\", \"-g\"]"
  , inspectPid := fun _ => okRun "42\n"
  , ssOutput := fun _ =>
      okRun "u_str LISTEN 5 128 /var/run/php-fpm/www.socket 123\n" }

/-- A tick where container c1 is classified php-fpm but its PID lookup
exits non-success, while c2 is healthy with queue length 5. -/
def envPidFail : DockerEnv :=
  { psOutput := okRun "c1\nc2\n"
  , inspectCmd := fun _ => okRun "[\"php-fpm\"]"
  , inspectPid := fun c => if c = "c1" then failRun else okRun "42"
  , ssOutput := fun _ =>
      okRun "u_str LISTEN 5 128 /var/run/php-fpm/www.socket 123\n" }

/-- A tick where the inspect call succeeds but its stdout is not valid
JSON. -/
def envBadJson : DockerEnv :=
  { psOutput := okRun "c1\n"
  , inspectCmd := fun _ => okRun "not json"
  , inspectPid := fun _ => okRun "42"
  , ssOutput := fun _ => okRun "" }

/-- A tick whose socket listing reports a negative third field. -/
def envNegQueue : DockerEnv :=
  { psOutput := okRun "c1\n"
  , inspectCmd := fun _ => okRun "[\"php-fpm\"]"
  , inspectPid := fun _ => okRun "42"
  , ssOutput := fun _ => okRun "/var/run/php-fpm/www.socket x -5\n" }

/-- A socket listing whose first matching line has an unparseable third
field while a later matching line parses as 7. -/
def ssTextBadFirst : String :=
  "/var/run/php-fpm/www.socket a xyz\n/var/run/php-fpm/www.socket b 7\n"

/-- A tick whose socket listing is `ssTextBadFirst`. -/
def envSsBadFirst : DockerEnv :=
  { psOutput := okRun "c1\n"
  , inspectCmd := fun _ => okRun "[\"php-fpm\"]"
  , inspectPid := fun _ => okRun "42"
  , ssOutput := fun _ => okRun ssTextBadFirst }

/-- A tick where container enumeration itself exits non-success. -/
def envEnumFail : DockerEnv :=
  { psOutput := failRun
  , inspectCmd := fun _ => okRun "[\"php-fpm\"]"
  , inspectPid := fun _ => okRun "42"
  , ssOutput := fun _ => okRun "" }

/-! ### Characterization of the ss-output scan -/

/-- One step of the line scan, phrased through the per-line extraction. -/
theorem scanSsLines_cons (line : String) (rest : List String) :
    scanSsLines (line :: rest) =
      (match ssLineVal line with
       | some q => q
       | none => scanSsLines rest) := by
  by_cases hc : containsSub line "/var/run/php-fpm/www.socket" = true
  · cases hg : (split_whitespace line).get? 2 with
    | none =>
      have hlt : ¬ (split_whitespace line).length ≥ 3 := by
        have := List.get?_eq_none.mp hg; omega
      simp only [scanSsLines, ssLineVal, hc, hg, if_true, if_neg hlt]
    | some f =>
      have hge : (split_whitespace line).length ≥ 3 := by
        have := (List.get?_eq_some.mp hg).1; omega
      have hgd : (split_whitespace line).getD 2 "" = f := by
        show ((split_whitespace line).get? 2).getD "" = f
        rw [hg]; rfl
      simp only [scanSsLines, ssLineVal, hc, hg, if_true, if_pos hge, hgd]
  · simp only [scanSsLines, ssLineVal, Bool.not_eq_true] at hc ⊢
    simp only [hc, if_false, Bool.false_eq_true]

/-- The line scan returns the value of the first line that yields one:
it equals the head of the per-line extractions, defaulting to zero. -/
theorem scanSsLines_eq_headD (ls : List String) :
    scanSsLines ls = ((ls.filterMap ssLineVal).headD 0) := by
  induction ls with
  | nil => rfl
  | cons line rest ih =>
    rw [scanSsLines_cons, List.filterMap_cons]
    cases ssLineVal line with
    | none => exact ih
    | some q => rfl

/-! ### Claim C3: sampler parsing behavior -/

/-- C3 counterexample: in `ssTextBadFirst` the first line containing the
socket path has an unparseable third field, so the claim says the result
is zero and later matches are ignored; the sampler instead falls through
and returns 7 from the second matching line. -/
theorem c3_counterexample :
    containsSub "/var/run/php-fpm/www.socket a xyz" "/var/run/php-fpm/www.socket" = true
    ∧ parseI32 ((split_whitespace "/var/run/php-fpm/www.socket a xyz").getD 2 "") = none
    ∧ rustLines ssTextBadFirst =
        ["/var/run/php-fpm/www.socket a xyz", "/var/run/php-fpm/www.socket b 7"]
    ∧ get_container_queue_length envSsBadFirst "c1" = Except.ok 7 := by
  refine ⟨?_, ?_, ?_, ?_⟩ <;> rfl

/-- C3 (amended): the sampler's result is zero when the listing call
exits non-zero; otherwise it is the parsed third field of the FIRST line
that both contains the well-known socket path and has a parseable third
whitespace field (the head of the per-line extractions), defaulting to
zero when no line qualifies — a matching line whose third field does not
parse is skipped, not taken as zero. -/
theorem c3_sampler_first_parsing_match :
    (∀ ls : List String, scanSsLines ls = ((ls.filterMap ssLineVal).headD 0))
    ∧ (∀ (env : DockerEnv) (cid : String) (pidOut out : CmdOutput) (pid : Nat),
        env.inspectPid cid = ExecOutcome.ran pidOut → pidOut.success = true →
        parseU32 (rustTrim pidOut.stdout) = some pid →
        env.ssOutput pid = ExecOutcome.ran out →
        ((out.success = false → get_container_queue_length env cid = Except.ok 0)
         ∧ (out.success = true →
            get_container_queue_length env cid =
              Except.ok (scanSsLines (rustLines out.stdout))))) := by
  constructor
  · exact scanSsLines_eq_headD
  · intro env cid pidOut out pid h1 h2 h3 h4
    constructor
    · intro h5
      simp [get_container_queue_length, h1, h2, h3, h4, h5]
    · intro h5
      simp [get_container_queue_length, h1, h2, h3, h4, h5]

/-- C3 witness: the amended theorem applied to the healthy tick, whose
listing's matching line has third field 5. -/
theorem c3_witness :
    scanSsLines ["u_str LISTEN 5 128 /var/run/php-fpm/www.socket 123"] = 5
    ∧ get_container_queue_length envHealthy "c1" = Except.ok 5 := by
  constructor
  · rw [c3_sampler_first_parsing_match.1
      ["u_str LISTEN 5 128 /var/run/php-fpm/www.socket 123"]]
    rfl
  · rw [(c3_sampler_first_parsing_match.2 envHealthy "c1"
      { success := true, stdout := "42\n" }
      { success := true
      , stdout := "u_str LISTEN 5 128 /var/run/php-fpm/www.socket 123\n" }
      42 rfl rfl rfl rfl).2 rfl]
    rfl

/-- A tick with two php-fpm containers each reporting the maximum i32
backlog, which overflows the i32 accumulator. -/
def envOverflow : DockerEnv :=
  { psOutput := okRun "c1\nc2\n"
  , inspectCmd := fun _ => okRun "[\"php-fpm\"]"
  , inspectPid := fun _ => okRun "42"
  , ssOutput := fun _ => okRun "/var/run/php-fpm/www.socket x 2147483647\n" }

/-- A tick where the inspect call reports the JSON value null (as the
runtime does for a container with no configured command). -/
def envNullCmd : DockerEnv :=
  { psOutput := okRun "c1\n"
  , inspectCmd := fun _ => okRun "null"
  , inspectPid := fun _ => okRun "42"
  , ssOutput := fun _ => okRun "" }

/-- A tick where the inspect call itself exits non-success. -/
def envInspectFail : DockerEnv :=
  { psOutput := okRun "c1\n"
  , inspectCmd := fun _ => failRun
  , inspectPid := fun _ => okRun "42"
  , ssOutput := fun _ => okRun "" }

/-- Enumeration failure test: the docker ps call failed to spawn or
exited non-success. -/
def enumFails (env : DockerEnv) : Bool :=
  match env.psOutput with
  | ExecOutcome.failed => true
  | ExecOutcome.ran out => !out.success

/-! ### Claim C6: marker exactness -/

/-- On an array of string tokens the classification test is a token-wise
equality test against "php-fpm". -/
theorem cmdMatches_arr_map_str (toks : List String) :
    cmdMatchesPhpFpm (Json.arr (toks.map Json.str)) =
      toks.any (fun s => s == "php-fpm") := by
  induction toks with
  | nil => rfl
  | cons t rest ih =>
    show ((t == "php-fpm") || cmdMatchesPhpFpm (Json.arr (rest.map Json.str)))
        = ((t == "php-fpm") || rest.any (fun s => s == "php-fpm"))
    rw [ih]

/-- C6: a launch-command token sequence classifies as the monitored
workload exactly when some token is the exact string "php-fpm"; in
particular a superstring token such as "php-fpm-worker" or a substring
token such as "php-fp" does not classify. -/
theorem c6_marker_exact_token_match :
    (∀ toks : List String,
      (cmdMatchesPhpFpm (Json.arr (toks.map Json.str)) = true ↔ "php-fpm" ∈ toks))
    ∧ cmdMatchesPhpFpm (Json.arr [Json.str "php-fpm-worker"]) = false
    ∧ cmdMatchesPhpFpm (Json.arr [Json.str "php-fp"]) = false := by
  refine ⟨?_, by decide, by decide⟩
  intro toks
  rw [cmdMatches_arr_map_str, List.any_eq_true]
  constructor
  · rintro ⟨x, hx, hm⟩
    exact (beq_iff_eq.mp hm) ▸ hx
  · intro h
    exact ⟨"php-fpm", h, beq_self_eq_true _⟩

/-! ### Claim C10: valid non-array JSON classifies as false, not error -/

/-- C10: when the inspect call succeeds and its output parses as valid
JSON whose value does not pass the classification test (for example the
value null), the classifier returns false rather than an error. -/
theorem c10_valid_json_nonmatch_is_false (env : DockerEnv) (cid : String)
    (out : CmdOutput) (j : Json)
    (h1 : env.inspectCmd cid = ExecOutcome.ran out)
    (h2 : out.success = true)
    (h3 : serde_json_from_str (rustTrim out.stdout) = some j)
    (h4 : cmdMatchesPhpFpm j = false) :
    is_php_fpm_container env cid = Except.ok false := by
  simp [is_php_fpm_container, h1, h2, h3, h4]

/-- C10 witness: the classifier on a container whose inspect output is
the JSON value null. -/
theorem c10_witness : is_php_fpm_container envNullCmd "c1" = Except.ok false :=
  c10_valid_json_nonmatch_is_false envNullCmd "c1"
    { success := true, stdout := "null" } Json.null rfl rfl rfl rfl

/-! ### Claim C2: classification failure handling -/

/-- C2 counterexample: the claim says inspect output that cannot be
parsed as the expected structured command description yields false and
never aborts the tick; on a successful inspect call whose stdout is not
valid JSON the classifier instead propagates an error and the tick's
collection aborts. -/
theorem c2_counterexample :
    is_php_fpm_container envBadJson "c1" =
      Except.error "Failed to parse docker inspect output as JSON"
    ∧ exceptOk (collect_php_fpm_queue_length envBadJson) = false := by
  exact ⟨rfl, rfl⟩

/-- C2 (amended): the classifier returns false (not an error) when the
inspect call exits non-success, and returns the classification test's
verdict when the output parses as JSON; but when a successful call's
output is not valid JSON the classifier raises an error, which aborts
the tick rather than merely excluding the container. -/
theorem c2_classifier_failure_modes (env : DockerEnv) (cid : String)
    (out : CmdOutput) (h1 : env.inspectCmd cid = ExecOutcome.ran out) :
    (out.success = false → is_php_fpm_container env cid = Except.ok false)
    ∧ (∀ j, out.success = true → serde_json_from_str (rustTrim out.stdout) = some j →
        is_php_fpm_container env cid = Except.ok (cmdMatchesPhpFpm j))
    ∧ (out.success = true → serde_json_from_str (rustTrim out.stdout) = none →
        is_php_fpm_container env cid =
          Except.error "Failed to parse docker inspect output as JSON") := by
  refine ⟨?_, ?_, ?_⟩
  · intro h2
    simp [is_php_fpm_container, h1, h2]
  · intro j h2 h3
    simp [is_php_fpm_container, h1, h2, h3]
  · intro h2 h3
    simp [is_php_fpm_container, h1, h2, h3]

/-- C2 witness: a non-success inspect call yields false, a parseable
non-matching command yields false, and unparseable output yields the
parse error. -/
theorem c2_witness :
    is_php_fpm_container envInspectFail "c1" = Except.ok false
    ∧ is_php_fpm_container envHealthy "c2" = Except.ok false
    ∧ is_php_fpm_container envBadJson "c1" =
        Except.error "Failed to parse docker inspect output as JSON" := by
  refine ⟨?_, ?_, ?_⟩
  · exact (c2_classifier_failure_modes envInspectFail "c1"
      { success := false, stdout := "" } rfl).1 rfl
  · exact (c2_classifier_failure_modes envHealthy "c2"
      { success := true, stdout := "[\"nginx\", \"-g\"]" } rfl).2.1
      (Json.arr [Json.str "nginx", Json.str "-g"]) rfl rfl
  · exact (c2_classifier_failure_modes envBadJson "c1"
      { success := true, stdout := "not json" } rfl).2.2 rfl rfl

/-! ### Claim C5: emission policy -/

/-- C5: a metric reaches the sink exactly when the collected aggregate
is strictly positive and dry-run is disabled; a non-positive aggregate
emits nothing, and a positive aggregate under dry-run is only logged. -/
theorem c5_emission_policy (env : DockerEnv) (dry_run : Bool) (t : Int)
    (h : collect_php_fpm_queue_length env = Except.ok t) :
    (∀ v : Int, collect_and_send_metrics env dry_run = Except.ok (Emission.sent v)
      ↔ (v = t ∧ 0 < t ∧ dry_run = false))
    ∧ (t ≤ 0 → collect_and_send_metrics env dry_run = Except.ok Emission.silent)
    ∧ (0 < t → dry_run = true →
        collect_and_send_metrics env dry_run = Except.ok (Emission.dryRunLog t)) := by
  have hcs : collect_and_send_metrics env dry_run =
      (if t > 0 then
        (if dry_run then Except.ok (Emission.dryRunLog t)
         else Except.ok (Emission.sent t))
       else Except.ok Emission.silent) := by
    unfold collect_and_send_metrics
    rw [h]
  rw [hcs]
  by_cases ht : t > 0
  · rw [if_pos ht]
    cases dry_run with
    | true =>
      refine ⟨?_, ?_, ?_⟩
      · intro v; simp
      · intro hle; omega
      · intro _ _; simp
    | false =>
      refine ⟨?_, ?_, ?_⟩
      · intro v
        simp only [if_false, Bool.false_eq_true, Except.ok.injEq]
        constructor
        · intro hv; exact ⟨(Emission.sent.inj hv).symm, ht, trivial⟩
        · rintro ⟨rfl, -, -⟩; rfl
      · intro hle; omega
      · intro _ hd; cases hd
  · rw [if_neg ht]
    refine ⟨?_, ?_, ?_⟩
    · intro v
      constructor
      · intro hv; cases Except.ok.inj hv
      · rintro ⟨-, ht', -⟩; exact absurd ht' ht
    · intro _; rfl
    · intro ht' _; exact absurd ht' ht

/-- C5 witness: the healthy tick collects 5; without dry-run the value
is handed to the sink, with dry-run it is only logged. -/
theorem c5_witness :
    collect_and_send_metrics envHealthy false = Except.ok (Emission.sent 5)
    ∧ collect_and_send_metrics envHealthy true = Except.ok (Emission.dryRunLog 5) := by
  constructor
  · exact ((c5_emission_policy envHealthy false 5 rfl).1 5).mpr
      ⟨rfl, by decide, rfl⟩
  · exact (c5_emission_policy envHealthy true 5 rfl).2.2 (by decide) rfl

/-! ### Claim C7: enumeration failure aborts the tick, not the loop -/

/-- C7: when the container enumeration command cannot be executed or
exits non-success, the enumerator fails, the tick's collection and
emission fail with no value handed to the sink, and the loop still
processes every subsequent tick. -/
theorem c7_enum_failure_tick_fatal_loop_survives (env : DockerEnv)
    (dry_run : Bool) (h : enumFails env = true) :
    exceptOk (get_docker_container_ids env) = false
    ∧ exceptOk (collect_and_send_metrics env dry_run) = false
    ∧ (∀ v : Int, collect_and_send_metrics env dry_run ≠ Except.ok (Emission.sent v))
    ∧ (∀ rest, run_ticks (env :: rest) dry_run =
        collect_and_send_metrics env dry_run :: run_ticks rest dry_run) := by
  have hids : exceptOk (get_docker_container_ids env) = false := by
    unfold enumFails at h
    unfold get_docker_container_ids
    cases hps : env.psOutput with
    | failed => rfl
    | ran out =>
      rw [hps] at h
      simp only [Bool.not_eq_true'] at h
      simp [h, exceptOk]
  have hcol : exceptOk (collect_php_fpm_queue_length env) = false := by
    unfold collect_php_fpm_queue_length
    cases hg : get_docker_container_ids env with
    | error e => rfl
    | ok ids => rw [hg] at hids; cases hids
  have hsend : exceptOk (collect_and_send_metrics env dry_run) = false := by
    unfold collect_and_send_metrics
    cases hc : collect_php_fpm_queue_length env with
    | error e => rfl
    | ok t => rw [hc] at hcol; cases hcol
  refine ⟨hids, hsend, ?_, fun rest => rfl⟩
  intro v hv
  rw [hv] at hsend
  cases hsend

/-- C7 witness: a tick whose docker ps exits non-success, followed by a
healthy tick that the loop still processes. -/
theorem c7_witness :
    exceptOk (collect_and_send_metrics envEnumFail false) = false
    ∧ run_ticks [envEnumFail, envHealthy] false =
        [collect_and_send_metrics envEnumFail false,
         collect_and_send_metrics envHealthy false] := by
  have h := c7_enum_failure_tick_fatal_loop_survives envEnumFail false rfl
  exact ⟨h.2.1, by rw [h.2.2.2 [envHealthy]]; rfl⟩

/-! ### Aggregation lemmas -/

/-- Reduction is the identity on values already in the i32 range. -/
theorem wrap32_eq_self (x : Int) (h1 : -2147483648 ≤ x)
    (h2 : x ≤ 2147483647) : wrap32 x = x := by
  unfold wrap32
  omega

/-- Reduction is idempotent. -/
theorem wrap32_wrap32 (x : Int) : wrap32 (wrap32 x) = wrap32 x := by
  unfold wrap32
  omega

/-- Reducing an addend before a further addition does not change the
reduced result (reduction is a homomorphism modulo 2^32). -/
theorem wrap32_add_left (x y : Int) : wrap32 (wrap32 x + y) = wrap32 (x + y) := by
  unfold wrap32
  omega

/-- A wrapping sum is always in the i32 range. -/
theorem wrap32_i32_add (a b : Int) : wrap32 (i32_add a b) = i32_add a b :=
  wrap32_wrap32 (a + b)

/-- Adding zero to an in-range accumulator is the identity. -/
theorem i32_add_zero (x : Int) (h : wrap32 x = x) : i32_add x 0 = x := by
  unfold i32_add
  rw [add_zero, h]

/-- Zero is in the i32 range. -/
theorem wrap32_zero : wrap32 0 = 0 := by decide

/-- Wrapping addition is right-commutative, because ordinary addition is
and reduction respects congruence modulo 2^32. -/
theorem i32_add_right_comm (a b c : Int) :
    i32_add (i32_add a b) c = i32_add (i32_add a c) b := by
  unfold i32_add
  rw [wrap32_add_left, wrap32_add_left]
  congr 1
  ring

/-- The i32 accumulator wraps: two samples of 2147483647 aggregate to
-2, as the program's release-build i32 addition does, not to the
mathematical sum 4294967294. -/
theorem collect_wraps_on_i32_overflow :
    collect_php_fpm_queue_length envOverflow = Except.ok (-2) := by
  rfl

/-- One step of the aggregation loop phrased through the per-container
contribution, for an in-range accumulator. -/
theorem aggregate_over_cons (env : DockerEnv) (c : String) (rest : List String)
    (acc : Int) (hacc : wrap32 acc = acc) :
    aggregate_over env (c :: rest) acc =
      (match containerContrib env c with
       | Except.error e => Except.error e
       | Except.ok q => aggregate_over env rest (i32_add acc q)) := by
  cases hcls : is_php_fpm_container env c with
  | error e => simp [aggregate_over, containerContrib, hcls]
  | ok b =>
    cases b with
    | true =>
      cases hq : get_container_queue_length env c with
      | error e => simp [aggregate_over, containerContrib, hcls, hq]
      | ok q => simp [aggregate_over, containerContrib, hcls, hq]
    | false => simp [aggregate_over, containerContrib, hcls, i32_add_zero acc hacc]

/-- When every container's contribution succeeds, the aggregation loop
folds the contributions into the accumulator with wrapping addition. -/
theorem aggregate_over_eq_sum (env : DockerEnv) (l : List String) (acc : Int)
    (hacc : wrap32 acc = acc)
    (h : ∀ c ∈ l, exceptOk (containerContrib env c) = true) :
    aggregate_over env l acc =
      Except.ok ((l.map (contribVal env)).foldl i32_add acc) := by
  induction l generalizing acc with
  | nil => simp [aggregate_over]
  | cons c rest ih =>
    rw [aggregate_over_cons env c rest acc hacc]
    have hc := h c (List.mem_cons_self c rest)
    cases hcc : containerContrib env c with
    | error e => rw [hcc] at hc; cases hc
    | ok q =>
      have hv : contribVal env c = q := by unfold contribVal; rw [hcc]
      show aggregate_over env rest (i32_add acc q) =
        Except.ok (((c :: rest).map (contribVal env)).foldl i32_add acc)
      rw [ih (i32_add acc q) (wrap32_i32_add acc q)
        (fun x hx => h x (List.mem_cons_of_mem c hx))]
      rw [List.map_cons, List.foldl_cons, hv]

/-- Conversely, a successful aggregation means every container's
contribution succeeded and the total is the wrapping fold of the
contributions into the accumulator. -/
theorem aggregate_over_ok_imp (env : DockerEnv) (l : List String) (acc t : Int)
    (hacc : wrap32 acc = acc) (h : aggregate_over env l acc = Except.ok t) :
    (∀ c ∈ l, exceptOk (containerContrib env c) = true)
    ∧ t = (l.map (contribVal env)).foldl i32_add acc := by
  induction l generalizing acc with
  | nil =>
    refine ⟨fun c hc => absurd hc (List.not_mem_nil c), ?_⟩
    have : acc = t := Except.ok.inj h
    simp [this.symm]
  | cons c rest ih =>
    rw [aggregate_over_cons env c rest acc hacc] at h
    cases hcc : containerContrib env c with
    | error e => rw [hcc] at h; cases h
    | ok q =>
      rw [hcc] at h
      have h' : aggregate_over env rest (i32_add acc q) = Except.ok t := h
      obtain ⟨h1, h2⟩ := ih (i32_add acc q) (wrap32_i32_add acc q) h'
      have hv : contribVal env c = q := by unfold contribVal; rw [hcc]
      refine ⟨?_, ?_⟩
      · intro x hx
        rcases List.mem_cons.mp hx with rfl | hx'
        · show exceptOk (containerContrib env x) = true
          rw [hcc]; rfl
        · exact h1 x hx'
      · rw [List.map_cons, List.foldl_cons, hv, h2]

/-! ### Claim C9: order-independence of the aggregate -/

/-- C9: the tick's aggregate is invariant under any permutation of the
container identifier list: if the aggregation loop succeeds on a list it
succeeds with the same total on every permutation of it. -/
theorem c9_aggregate_perm_invariant (env : DockerEnv) (l l2 : List String)
    (hp : l.Perm l2) (t : Int) (h : aggregate_over env l 0 = Except.ok t) :
    aggregate_over env l2 0 = Except.ok t := by
  obtain ⟨hall, ht⟩ := aggregate_over_ok_imp env l 0 t wrap32_zero h
  have hall2 : ∀ c ∈ l2, exceptOk (containerContrib env c) = true :=
    fun c hc => hall c (hp.mem_iff.mpr hc)
  rw [aggregate_over_eq_sum env l2 0 wrap32_zero hall2]
  have hfold : (l.map (contribVal env)).foldl i32_add 0 =
      (l2.map (contribVal env)).foldl i32_add 0 :=
    (hp.map (contribVal env)).foldl_eq'
      (fun x _ y _ z => i32_add_right_comm z x y) 0
  rw [ht, hfold]

/-- C9 witness: swapping the two containers of the healthy tick leaves
the aggregate at 5. -/
theorem c9_witness : aggregate_over envHealthy ["c2", "c1"] 0 = Except.ok 5 :=
  c9_aggregate_perm_invariant envHealthy ["c1", "c2"] ["c2", "c1"]
    (List.Perm.swap "c2" "c1" []) 5 rfl

/-! ### Claim C1: per-container failure isolation -/

/-- C1 counterexample: container c1 is classified as php-fpm but its PID
lookup exits non-success; the claim says this is caught and treated as a
zero contribution with the aggregate equal to the healthy container's 5,
yet the collection aborts with an error and yields no aggregate at all. -/
theorem c1_counterexample :
    is_php_fpm_container envPidFail "c1" = Except.ok true
    ∧ get_container_queue_length envPidFail "c1" =
        Except.error "Failed to get PID for container c1"
    ∧ collect_php_fpm_queue_length envPidFail =
        Except.error "Failed to get PID for container c1"
    ∧ collect_php_fpm_queue_length envPidFail ≠ Except.ok 5 := by
  refine ⟨rfl, rfl, rfl, ?_⟩
  intro hcontra
  rw [show collect_php_fpm_queue_length envPidFail =
    Except.error "Failed to get PID for container c1" from rfl] at hcontra
  cases hcontra

/-- C1 (amended): a container whose classification inspect call exits
non-success, or which is classified but whose namespace listing call
exits non-success, contributes zero without disturbing the others; and
whenever no container's classification or sampling step raises a
propagating error the aggregate equals the wrapping 32-bit sum (the
i32 accumulator's left fold) of the per-container contributions. (A
PID-resolution failure or a JSON-parse failure is NOT caught: it
propagates and aborts the tick, per the counterexample.) -/
theorem c1_soft_failures_contribute_zero (env : DockerEnv) (ids : List String)
    (hids : get_docker_container_ids env = Except.ok ids)
    (hall : ∀ c ∈ ids, exceptOk (containerContrib env c) = true) :
    collect_php_fpm_queue_length env =
      Except.ok (sumWrap32 (ids.map (contribVal env)))
    ∧ (∀ c out, env.inspectCmd c = ExecOutcome.ran out → out.success = false →
        containerContrib env c = Except.ok 0)
    ∧ (∀ c pidOut out pid, is_php_fpm_container env c = Except.ok true →
        env.inspectPid c = ExecOutcome.ran pidOut → pidOut.success = true →
        parseU32 (rustTrim pidOut.stdout) = some pid →
        env.ssOutput pid = ExecOutcome.ran out → out.success = false →
        containerContrib env c = Except.ok 0) := by
  refine ⟨?_, ?_, ?_⟩
  · have hc : collect_php_fpm_queue_length env = aggregate_over env ids 0 := by
      unfold collect_php_fpm_queue_length
      rw [hids]
    rw [hc, aggregate_over_eq_sum env ids 0 wrap32_zero hall]
    rfl
  · intro c out h1 h2
    have hfalse : is_php_fpm_container env c = Except.ok false := by
      simp [is_php_fpm_container, h1, h2]
    simp [containerContrib, hfalse]
  · intro c pidOut out pid hcls h1 h2 h3 h4 h5
    have hcc : containerContrib env c = get_container_queue_length env c := by
      unfold containerContrib
      rw [hcls]
      rfl
    rw [hcc]
    simp [get_container_queue_length, h1, h2, h3, h4, h5]

/-- C1 witness: on the healthy tick every contribution succeeds and the
collection returns the contributions' sum, which evaluates to 5. -/
theorem c1_witness : collect_php_fpm_queue_length envHealthy = Except.ok 5 := by
  rw [(c1_soft_failures_contribute_zero envHealthy ["c1", "c2"] rfl
    (by decide)).1]
  rfl

/-! ### Claim C4: sign of samples and aggregate -/

/-- C4 counterexample: a socket listing whose matching line has third
field "-5" makes the sampler return the negative sample -5 and the
tick's aggregate -5, so neither is always non-negative. -/
theorem c4_counterexample :
    get_container_queue_length envNegQueue "c1" = Except.ok (-5)
    ∧ collect_php_fpm_queue_length envNegQueue = Except.ok (-5)
    ∧ ¬ (0 : Int) ≤ -5 := by
  exact ⟨rfl, rfl, by decide⟩

/-- A fold of wrapping additions of non-negative values agrees with the
mathematical sum as long as that sum stays within the i32 range. -/
theorem foldl_i32_add_eq_sum (l : List Int) (hnn : ∀ x ∈ l, 0 ≤ x) :
    ∀ acc : Int, 0 ≤ acc → acc + l.sum ≤ 2147483647 →
      l.foldl i32_add acc = acc + l.sum := by
  induction l with
  | nil =>
    intro acc _ _
    simp
  | cons q rest ih =>
    intro acc hacc hsum
    rw [List.sum_cons] at hsum
    have hq : 0 ≤ q := hnn q (List.mem_cons_self q rest)
    have hrest : ∀ x ∈ rest, 0 ≤ x := fun x hx => hnn x (List.mem_cons_of_mem q hx)
    have hrsum : 0 ≤ rest.sum := List.sum_nonneg hrest
    have hstep : i32_add acc q = acc + q := by
      unfold i32_add
      exact wrap32_eq_self (acc + q) (by omega) (by omega)
    rw [List.foldl_cons, hstep,
      ih hrest (acc + q) (by omega) (by omega), List.sum_cons]
    ring

/-- C4 (amended): samples are whatever integer the listing's third field
parses to, so they can be negative; and because the aggregate is an i32
accumulation it can wrap on overflow. But whenever every per-container
sample is non-negative — in particular whenever every per-line
extraction of the listing is non-negative — and the samples'
mathematical sum fits in the i32 range, the per-container samples and
the tick's aggregate are ≥ 0. -/
theorem c4_aggregate_nonneg_of_samples_nonneg (env : DockerEnv)
    (ids : List String) (t : Int)
    (hids : get_docker_container_ids env = Except.ok ids)
    (hnn : ∀ c ∈ ids, ∀ q : Int,
      get_container_queue_length env c = Except.ok q → 0 ≤ q)
    (hfit : (ids.map (contribVal env)).sum ≤ 2147483647)
    (h : collect_php_fpm_queue_length env = Except.ok t) :
    0 ≤ t
    ∧ (∀ ls : List String,
        (∀ line ∈ ls, ∀ q : Int, ssLineVal line = some q → 0 ≤ q) →
        0 ≤ scanSsLines ls) := by
  constructor
  · unfold collect_php_fpm_queue_length at h
    rw [hids] at h
    obtain ⟨hall, ht⟩ := aggregate_over_ok_imp env ids 0 t wrap32_zero h
    have hcnn : ∀ x ∈ ids.map (contribVal env), 0 ≤ x := by
      intro x hx
      obtain ⟨c, hc, hcv⟩ := List.mem_map.mp hx
      subst hcv
      unfold contribVal
      cases hcc : containerContrib env c with
      | error e => exact le_refl 0
      | ok q =>
        unfold containerContrib at hcc
        cases hcls : is_php_fpm_container env c with
        | error e => rw [hcls] at hcc; cases hcc
        | ok b =>
          rw [hcls] at hcc
          cases b with
          | false => cases Except.ok.inj hcc; exact le_refl 0
          | true => exact hnn c hc q hcc
    rw [ht, foldl_i32_add_eq_sum (ids.map (contribVal env)) hcnn 0 (le_refl 0)
      (by rw [zero_add]; exact hfit), zero_add]
    exact List.sum_nonneg hcnn
  · intro ls hls
    rw [scanSsLines_eq_headD]
    cases hfm : ls.filterMap ssLineVal with
    | nil => exact le_refl 0
    | cons q rest =>
      have hq : q ∈ ls.filterMap ssLineVal := by
        rw [hfm]; exact List.mem_cons_self q rest
      obtain ⟨line, hline, hval⟩ := List.mem_filterMap.mp hq
      exact hls line hline q hval

/-- C4 witness: on the healthy tick every sample is 5 ≥ 0 and the
aggregate 5 is non-negative; the listing of its matching line extracts
only the non-negative 5. -/
theorem c4_witness :
    (0 : Int) ≤ 5
    ∧ 0 ≤ scanSsLines ["u_str LISTEN 5 128 /var/run/php-fpm/www.socket 123"] := by
  have hnn : ∀ c ∈ ["c1", "c2"], ∀ q : Int,
      get_container_queue_length envHealthy c = Except.ok q → 0 ≤ q := by
    intro c hc q hq
    fin_cases hc <;>
      · have h5 : Except.ok (5 : Int) = Except.ok q := hq
        cases Except.ok.inj h5
        decide
  have h := c4_aggregate_nonneg_of_samples_nonneg envHealthy ["c1", "c2"] 5
    rfl hnn (by decide) rfl
  refine ⟨h.1, ?_⟩
  apply h.2
  intro line hline q hq
  rcases List.mem_singleton.mp hline with rfl
  have h5 : Option.some (5 : Int) = some q := hq
  cases Option.some.inj h5
  decide

/-! ### Claim C8: dimension parsing -/

/-- Scanning a separator-free list finds nothing. -/
theorem splitOnceAux_no_sep (sep : Char) (l : List Char) (h : sep ∉ l) :
    ∀ acc, splitOnceAux sep l acc = none := by
  induction l with
  | nil => intro acc; rfl
  | cons c rest ih =>
    intro acc
    have hne : ¬ c = sep := fun he => h (he ▸ List.mem_cons_self c rest)
    simp only [splitOnceAux, if_neg hne]
    exact ih (fun hm => h (List.mem_cons_of_mem c hm)) (c :: acc)

/-- Scanning up to the first separator returns the scanned characters
(after the accumulator) and the remainder. -/
theorem splitOnceAux_found (sep : Char) (l1 : List Char) (h : sep ∉ l1)
    (l2 : List Char) :
    ∀ acc, splitOnceAux sep (l1 ++ sep :: l2) acc =
      some (String.mk (acc.reverse ++ l1), String.mk l2) := by
  induction l1 with
  | nil =>
    intro acc
    simp [splitOnceAux]
  | cons c rest ih =>
    intro acc
    have hne : ¬ c = sep := fun he => h (he ▸ List.mem_cons_self c rest)
    simp only [List.cons_append, splitOnceAux, if_neg hne, List.append_eq]
    rw [ih (fun hm => h (List.mem_cons_of_mem c hm)) (c :: acc)]
    simp [List.append_assoc]

/-- C8: each dimension argument is split at its FIRST equals sign into a
trimmed key/value pair ("env=prod" gives exactly (env, prod)); an
argument without an equals sign is dropped by itself, leaving the pairs
of the other arguments untouched. -/
theorem c8_dimension_parsing :
    parse_dimensions ["env=prod"] = [("env", "prod")]
    ∧ (∀ xs ys s, split_once '=' s = none →
        parse_dimensions (xs ++ s :: ys) = parse_dimensions (xs ++ ys))
    ∧ (∀ s k v, split_once '=' s = some (k, v) →
        parse_dimensions [s] = [(rustTrim k, rustTrim v)])
    ∧ (∀ k v : String, '=' ∉ k.data →
        split_once '=' (k ++ "=" ++ v) = some (k, v)) := by
  refine ⟨rfl, ?_, ?_, ?_⟩
  · intro xs ys s hs
    simp [parse_dimensions, List.filterMap_append, List.filterMap_cons, hs]
  · intro s k v hs
    simp [parse_dimensions, List.filterMap_cons, hs]
  · intro k v hk
    unfold split_once
    have hd : (k ++ "=" ++ v).data = k.data ++ '=' :: v.data := by
      rw [String.data_append, String.data_append]
      show k.data ++ ['='] ++ v.data = _
      rw [List.append_assoc]
      rfl
    rw [hd, splitOnceAux_found '=' k.data hk v.data []]
    rfl

/-- C8 witness: a malformed argument between two well-formed ones is
dropped without affecting their pairs, and "env=prod" splits at its
equals sign into (env, prod). -/
theorem c8_witness :
    parse_dimensions ["env=prod", "malformed", "a=b"] = [("env", "prod"), ("a", "b")]
    ∧ split_once '=' "env=prod" = some ("env", "prod") := by
  constructor
  · rw [show (["env=prod", "malformed", "a=b"] : List String)
        = ["env=prod"] ++ "malformed" :: ["a=b"] from rfl,
      c8_dimension_parsing.2.1 ["env=prod"] ["a=b"] "malformed" rfl]
    rfl
  · exact c8_dimension_parsing.2.2.2 "env" "prod" (by decide)

end PhpFpmMonitor
